import Mathlib

/-!
# Verification of the attendance / payroll derivation logic of ingenzi-hr-bn

Shallow embedding of the route handlers in `src/routes/attendance.js` and the
payroll routes (`src/unnamed/part_002`).  Timestamps are modelled as integer
milliseconds of local wall-clock time (JavaScript `Date` values); monetary
amounts and hours are exact rationals; nullable columns are `Option`s; the
relational store is a list of records, with Prisma's `findUnique`/`findFirst`
modelled as `List.find?` on the key predicate.
-/

/-- Attendance status enum (`present/absent/late/half_day`). -/
inductive AttStatus where
  | present
  | absent
  | late
  | half_day
deriving DecidableEq, Repr

/-- Payroll status enum (`pending/paid`). -/
inductive PayStatus where
  | pending
  | paid
deriving DecidableEq, Repr

/-- One row of the `attendance` table.  `date` is the day key (timestamp
truncated to local midnight, in ms); `checkIn`/`checkOut` are nullable
timestamps; `hoursWorked` is the nullable derived duration. -/
structure AttendanceRecord where
  employeeId : Nat
  date : Int
  checkIn : Option Int
  checkOut : Option Int
  hoursWorked : Option ℚ
  status : AttStatus
  notes : Option String
deriving DecidableEq, Repr

/-- The slice of the `employee` table the payroll routes read. -/
structure Employee where
  id : Nat
  firstName : String
  lastName : String
  salary : ℚ
deriving DecidableEq, Repr

/-- One row of the `payroll` table. -/
structure PayrollRecord where
  id : Nat
  employeeId : Nat
  month : Nat
  year : Nat
  basicSalary : ℚ
  allowances : ℚ
  deductions : ℚ
  netSalary : ℚ
  workingDays : Nat
  status : PayStatus
  paidDate : Option Int
deriving DecidableEq, Repr

/-- JavaScript's `x.toFixed(2)` on the exact value: round to the nearest
multiple of 1/100, ties towards the larger value. -/
def round2 (q : ℚ) : ℚ :=
  ((⌊q * 100 + 1 / 2⌋ : ℤ) : ℚ) / 100

/-- `(b − a)` milliseconds expressed in hours:
`(checkOutTime - checkInTime) / (1000 * 60 * 60)`. -/
def hoursBetween (a b : Int) : ℚ :=
  ((b - a : ℤ) : ℚ) / (1000 * 60 * 60)

/-- `prisma.attendance.findUnique` on the `employeeId_date` compound key. -/
def findAttendance (store : List AttendanceRecord) (eid : Nat) (day : Int) :
    Option AttendanceRecord :=
  store.find? fun r => decide (r.employeeId = eid) && decide (r.date = day)

/-- Replace the record keyed by `(eid, day)` with `r'`
(`prisma.attendance.update` under the one-record-per-day invariant). -/
def updateAttendance (store : List AttendanceRecord) (eid : Nat) (day : Int)
    (r' : AttendanceRecord) : List AttendanceRecord :=
  store.map fun r =>
    if r.employeeId = eid ∧ r.date = day then r' else r

/-- Error outcome of `POST /api/attendance/checkin`. -/
inductive CheckInError where
  | AlreadyCheckedIn
deriving DecidableEq, Repr

/-- Error outcomes of `POST /api/attendance/checkout`. -/
inductive CheckOutError where
  | NotCheckedIn
  | AlreadyCheckedOut
deriving DecidableEq, Repr

/-- `POST /api/attendance/checkin`: fail with 400 if today's record already has
a checkIn, otherwise upsert with `checkIn = now, status = present`.  Returns
the route result together with the resulting store. -/
def checkInOp (store : List AttendanceRecord) (eid : Nat) (day now : Int) :
    Except CheckInError AttendanceRecord × List AttendanceRecord :=
  match findAttendance store eid day with
  | some r =>
    if r.checkIn.isSome then
      (.error .AlreadyCheckedIn, store)
    else
      let r' := { r with checkIn := some now, status := AttStatus.present }
      (.ok r', updateAttendance store eid day r')
  | none =>
    let r' : AttendanceRecord :=
      { employeeId := eid, date := day, checkIn := some now, checkOut := none,
        hoursWorked := none, status := AttStatus.present, notes := none }
    (.ok r', store ++ [r'])

/-- `POST /api/attendance/checkout`: `NotCheckedIn` when today's record is
absent or has no checkIn, `AlreadyCheckedOut` when checkOut is already set;
otherwise store `checkOut = now` and
`hoursWorked = ((now − checkIn) / 3600000).toFixed(2)`. -/
def checkOutOp (store : List AttendanceRecord) (eid : Nat) (day now : Int) :
    Except CheckOutError AttendanceRecord × List AttendanceRecord :=
  match findAttendance store eid day with
  | none => (.error .NotCheckedIn, store)
  | some r =>
    match r.checkIn with
    | none => (.error .NotCheckedIn, store)
    | some ci =>
      match r.checkOut with
      | some _ => (.error .AlreadyCheckedOut, store)
      | none =>
        let r' := { r with checkOut := some now,
                           hoursWorked := some (round2 (hoursBetween ci now)) }
        (.ok r', updateAttendance store eid day r')

/-- Request body of the HR `POST /api/attendance` upsert.  `notes = none`
models an absent (`undefined`) field, which Prisma skips on update. -/
structure HRAttendanceInput where
  employeeId : Nat
  day : Int
  checkIn : Option Int
  checkOut : Option Int
  status : AttStatus
  notes : Option String
deriving DecidableEq, Repr

/-- `let hoursWorked = null; if (checkIn && checkOut) hoursWorked = ...`. -/
def hrComputedHours (ci co : Option Int) : Option ℚ :=
  match ci, co with
  | some a, some b => some (hoursBetween a b)
  | _, _ => none

/-- `hoursWorked ? hoursWorked.toFixed(2) : null`: the truthiness test sends
both `null` and a zero duration to `null`. -/
def hrStoredHours (h : Option ℚ) : Option ℚ :=
  match h with
  | none => none
  | some v => if v = 0 then none else some (round2 v)

/-- The HR `POST /api/attendance` upsert keyed by `(employeeId, day)`.
`checkIn`, `checkOut` and `hoursWorked` are written as computed (explicit
`null` when absent); `notes` is written only when supplied, since an
`undefined` field is skipped by the update. -/
def hrUpsert (store : List AttendanceRecord) (input : HRAttendanceInput) :
    AttendanceRecord × List AttendanceRecord :=
  let h := hrStoredHours (hrComputedHours input.checkIn input.checkOut)
  match findAttendance store input.employeeId input.day with
  | some r =>
    let r' : AttendanceRecord :=
      { r with checkIn := input.checkIn, checkOut := input.checkOut,
               hoursWorked := h, status := input.status,
               notes := match input.notes with
                        | some n => some n
                        | none => r.notes }
    (r', updateAttendance store input.employeeId input.day r')
  | none =>
    let r' : AttendanceRecord :=
      { employeeId := input.employeeId, date := input.day,
        checkIn := input.checkIn, checkOut := input.checkOut,
        hoursWorked := h, status := input.status, notes := input.notes }
    (r', store ++ [r'])

/-- Days since 1970-01-01 of the local calendar date `(y, m, d)` (proleptic
Gregorian, `y ≥ 1`, `m ∈ [1,12]`), the date arithmetic behind JavaScript's
`new Date(year, monthIndex, dayOfMonth)`. -/
def daysFromCivil (y m d : Nat) : Int :=
  let yAdj := if m ≤ 2 then y - 1 else y
  let era := yAdj / 400
  let yoe := yAdj % 400
  let mp := if 2 < m then m - 3 else m + 9
  let doy := (153 * mp + 2) / 5 + d - 1
  let doe := yoe * 365 + yoe / 4 - yoe / 100 + doy
  ((era * 146097 + doe : Nat) : Int) - 719468

/-- `new Date(year, month - 1, 1)` followed by `setHours(0, 0, 0, 0)`:
the first calendar day of the month at local midnight, in ms. -/
def monthStartMs (y m : Nat) : Int :=
  daysFromCivil y m 1 * 86400000

/-- `new Date(year, month, 0)` followed by `setHours(23, 59, 59, 999)`:
month index `month`, day 0 rolls back to the last calendar day of month `m`,
then the wall clock is pushed to 23:59:59.999. -/
def monthEndMs (y m : Nat) : Int :=
  let nextMonthStart :=
    if m = 12 then daysFromCivil (y + 1) 1 1 else daysFromCivil y (m + 1) 1
  (nextMonthStart * 86400000 - 86400000) + (23 * 3600000 + 59 * 60000 + 59 * 1000 + 999)

/-- Database state visible to the payroll routes. -/
structure Db where
  employees : List Employee
  attendance : List AttendanceRecord
  payrolls : List PayrollRecord
deriving DecidableEq, Repr

/-- `prisma.payroll.findFirst` on `(employeeId, month, year)`. -/
def findPayrollByKey (ps : List PayrollRecord) (eid m y : Nat) :
    Option PayrollRecord :=
  ps.find? fun p =>
    decide (p.employeeId = eid) && decide (p.month = m) && decide (p.year = y)

/-- `prisma.employee.findUnique` on `id`. -/
def findEmployee (emps : List Employee) (eid : Nat) : Option Employee :=
  emps.find? fun e => decide (e.id = eid)

/-- `` existing.employee ? `${firstName} ${lastName}` : 'Employee' ``. -/
def displayName (emps : List Employee) (eid : Nat) : String :=
  match findEmployee emps eid with
  | some e => e.firstName ++ " " ++ e.lastName
  | none => "Employee"

/-- The 400 response body for a duplicate payroll. -/
def dupMessage (name : String) (m y : Nat) : String :=
  "Payroll for " ++ name ++
    (" for " ++ toString m ++ "/" ++ toString y ++
      " already exists. Please check the payroll list or delete the existing record first.")

/-- Error outcomes of `POST /api/payroll`. -/
inductive PayrollError where
  | DuplicatePayroll (msg : String)
  | EmployeeNotFound
deriving DecidableEq, Repr

/-- The `prisma.attendance.findMany` query of the payroll generator:
this employee, `date` between the computed month bounds, `status = present`. -/
def payrollAttendanceQuery (records : List AttendanceRecord) (eid m y : Nat) :
    List AttendanceRecord :=
  records.filter fun r =>
    decide (r.employeeId = eid) && decide (monthStartMs y m ≤ r.date) &&
      decide (r.date ≤ monthEndMs y m) && decide (r.status = AttStatus.present)

/-- `POST /api/payroll` (generatePayroll).  `newId` models the id the
database assigns to the inserted row.  The route returns before any insert in
both error cases, so the store component is unchanged there. -/
def generatePayroll (db : Db) (eid m y newId : Nat) :
    Except PayrollError PayrollRecord × Db :=
  match findPayrollByKey db.payrolls eid m y with
  | some existing =>
    (.error (.DuplicatePayroll
        (dupMessage (displayName db.employees existing.employeeId) m y)), db)
  | none =>
    match findEmployee db.employees eid with
    | none => (.error .EmployeeNotFound, db)
    | some emp =>
      let workingDays := (payrollAttendanceQuery db.attendance eid m y).length
      let basicSalary := emp.salary
      let allowances := basicSalary * (1 / 10)
      let deductions := basicSalary * (5 / 100)
      let netSalary := basicSalary + allowances - deductions
      let p : PayrollRecord :=
        { id := newId, employeeId := eid, month := m, year := y,
          basicSalary := basicSalary, allowances := allowances,
          deductions := deductions, netSalary := netSalary,
          workingDays := workingDays, status := PayStatus.pending,
          paidDate := none }
      (.ok p, { db with payrolls := db.payrolls ++ [p] })

/-- Error outcome of `PUT /api/payroll/:id/paid`. -/
inductive MarkPaidError where
  | NotFound
deriving DecidableEq, Repr

/-- `prisma.payroll.findUnique` on `id`. -/
def findPayrollById (ps : List PayrollRecord) (pid : Nat) :
    Option PayrollRecord :=
  ps.find? fun p => decide (p.id = pid)

/-- `PUT /api/payroll/:id/paid` (markPaid): `prisma.payroll.update` setting
`status = 'paid', paidDate = new Date()`; Prisma error `P2025` (no such row)
becomes the 404 `NotFound`. -/
def markPaid (ps : List PayrollRecord) (pid : Nat) (now : Int) :
    Except MarkPaidError PayrollRecord × List PayrollRecord :=
  match findPayrollById ps pid with
  | none => (.error .NotFound, ps)
  | some r =>
    let r' := { r with status := PayStatus.paid, paidDate := some now }
    (.ok r', ps.map fun p => if p.id = pid then r' else p)

/-- The spec's working-day count, written from its words: the number of the
employee's attendance records whose status is `present` and whose date lies in
the month window, inclusive at both bounds. -/
def specWorkingDays (records : List AttendanceRecord) (eid m y : Nat) : Nat :=
  records.countP fun r =>
    decide (r.employeeId = eid) && decide (r.status = AttStatus.present) &&
      decide (monthStartMs y m ≤ r.date) && decide (r.date ≤ monthEndMs y m)

/-! ## Helper lemmas -/

/-- Evaluates `round2` once its floor argument is pinned between two integer
bounds. -/
theorem round2_eq (q : ℚ) (n : ℤ) (h1 : (n : ℚ) ≤ q * 100 + 1 / 2)
    (h2 : q * 100 + 1 / 2 < (n : ℚ) + 1) : round2 q = (n : ℚ) / 100 := by
  unfold round2
  rw [Int.floor_eq_iff.mpr ⟨h1, h2⟩]

/-- Rounding to two decimals preserves non-negativity. -/
theorem round2_nonneg (q : ℚ) (h : 0 ≤ q) : 0 ≤ round2 q := by
  unfold round2
  have h0 : (0 : ℚ) ≤ q * 100 + 1 / 2 := by nlinarith
  have h1 : (0 : ℤ) ≤ ⌊q * 100 + 1 / 2⌋ := Int.floor_nonneg.mpr h0
  have h2 : (0 : ℚ) ≤ ((⌊q * 100 + 1 / 2⌋ : ℤ) : ℚ) := by exact_mod_cast h1
  exact div_nonneg h2 (by norm_num)

/-- An elapsed duration is non-negative when the end is not before the
start. -/
theorem hoursBetween_nonneg (a b : Int) (h : a ≤ b) : 0 ≤ hoursBetween a b := by
  unfold hoursBetween
  refine div_nonneg ?_ (by norm_num)
  exact_mod_cast sub_nonneg.mpr h

/-- A record returned by the `(employeeId, date)` lookup carries that key. -/
theorem findAttendance_some {store : List AttendanceRecord} {eid : Nat}
    {day : Int} {r : AttendanceRecord} (h : findAttendance store eid day = some r) :
    r.employeeId = eid ∧ r.date = day := by
  have := List.find?_some h
  simpa using this

/-! ## C4: check-out stores the rounded duration -/

/-- C4.  When today's record has a checkIn and no checkOut, `POST
/api/attendance/checkout` succeeds and stores `hoursWorked` equal to the
elapsed time between checkIn and the checkout timestamp, expressed in hours
and rounded to 2 decimal places. -/
theorem checkOut_stores_rounded_hours (store : List AttendanceRecord)
    (eid : Nat) (day now : Int) (r : AttendanceRecord) (ci : Int)
    (h : findAttendance store eid day = some r) (hci : r.checkIn = some ci)
    (hco : r.checkOut = none) :
    (checkOutOp store eid day now).1 =
      Except.ok { r with checkOut := some now,
                         hoursWorked := some (round2 (hoursBetween ci now)) } := by
  simp [checkOutOp, h, hci, hco]

/-- A concrete run of C4: check in at local midnight, check out 90 minutes
later, producing 1.5 stored hours. -/
def checkOutRecord0 : AttendanceRecord :=
  { employeeId := 1, date := 0, checkIn := some 0, checkOut := none,
    hoursWorked := none, status := AttStatus.present, notes := none }

/-- Witness for C4 at a concrete input. -/
theorem checkOut_stores_rounded_hours_witness :
    findAttendance [checkOutRecord0] 1 0 = some checkOutRecord0 ∧
    (checkOutOp [checkOutRecord0] 1 0 5400000).1 =
      Except.ok { checkOutRecord0 with
                    checkOut := some 5400000,
                    hoursWorked := some (round2 (hoursBetween 0 5400000)) } ∧
    round2 (hoursBetween 0 5400000) = 3 / 2 := by
  refine ⟨rfl, checkOut_stores_rounded_hours [checkOutRecord0] 1 0 5400000
    checkOutRecord0 0 rfl rfl rfl, ?_⟩
  rw [round2_eq (hoursBetween 0 5400000) 150 (by norm_num [hoursBetween])
    (by norm_num [hoursBetween])]
  norm_num

/-! ## C5: check-out error cases leave the store unchanged -/

/-- C5.  `POST /api/attendance/checkout` fails with `NotCheckedIn` when the
day's record is absent or has no checkIn, and with `AlreadyCheckedOut` when
the record already has a checkOut (checkIn present); in each error case the
returned store is the input store, unchanged. -/
theorem checkOut_error_cases (store : List AttendanceRecord) (eid : Nat)
    (day now : Int) :
    (findAttendance store eid day = none →
      checkOutOp store eid day now = (Except.error CheckOutError.NotCheckedIn, store))
    ∧ (∀ r, findAttendance store eid day = some r → r.checkIn = none →
      checkOutOp store eid day now = (Except.error CheckOutError.NotCheckedIn, store))
    ∧ (∀ r ci co, findAttendance store eid day = some r → r.checkIn = some ci →
      r.checkOut = some co →
      checkOutOp store eid day now = (Except.error CheckOutError.AlreadyCheckedOut, store)) := by
  refine ⟨fun h => ?_, fun r h hci => ?_, fun r ci co h hci hco => ?_⟩
  · simp [checkOutOp, h]
  · simp [checkOutOp, h, hci]
  · simp [checkOutOp, h, hci, hco]

/-- A record that has been checked out already. -/
def checkedOutRecord0 : AttendanceRecord :=
  { employeeId := 1, date := 0, checkIn := some 0, checkOut := some 3600000,
    hoursWorked := some 1, status := AttStatus.present, notes := none }

/-- Witness for C5: empty store (never checked in) and an already
checked-out record. -/
theorem checkOut_error_cases_witness :
    checkOutOp [] 1 0 5400000 = (Except.error CheckOutError.NotCheckedIn, []) ∧
    checkOutOp [checkedOutRecord0] 1 0 5400000 =
      (Except.error CheckOutError.AlreadyCheckedOut, [checkedOutRecord0]) :=
  ⟨(checkOut_error_cases [] 1 0 5400000).1 rfl,
   (checkOut_error_cases [checkedOutRecord0] 1 0 5400000).2.2 checkedOutRecord0
     0 3600000 rfl rfl rfl⟩

/-! ## C6: check-in fails exactly on a prior checkIn -/

/-- C6.  `POST /api/attendance/checkin` fails with `AlreadyCheckedIn` exactly
when a record for that (employee, day) already has a non-null checkIn;
otherwise it creates or updates the record for that day with `checkIn = now`
and `status = present`. -/
theorem checkIn_spec (store : List AttendanceRecord) (eid : Nat)
    (day now : Int) :
    ((checkInOp store eid day now).1 = Except.error CheckInError.AlreadyCheckedIn ↔
      ∃ r, findAttendance store eid day = some r ∧ r.checkIn ≠ none)
    ∧ ((¬ ∃ r, findAttendance store eid day = some r ∧ r.checkIn ≠ none) →
      ∃ r', (checkInOp store eid day now).1 = Except.ok r')
    ∧ (∀ r', (checkInOp store eid day now).1 = Except.ok r' →
      r'.employeeId = eid ∧ r'.date = day ∧ r'.checkIn = some now ∧
        r'.status = AttStatus.present) := by
  refine ⟨?_, ?_, ?_⟩
  · cases h : findAttendance store eid day with
    | none => simp [checkInOp, h]
    | some r =>
      cases hci : r.checkIn with
      | none => simp [checkInOp, h, hci]
      | some ci => simp [checkInOp, h, hci]
  · intro hne
    cases h : findAttendance store eid day with
    | none =>
      exact ⟨{ employeeId := eid, date := day, checkIn := some now,
               checkOut := none, hoursWorked := none,
               status := AttStatus.present, notes := none },
        by simp [checkInOp, h]⟩
    | some r =>
      cases hci : r.checkIn with
      | none =>
        exact ⟨{ r with checkIn := some now, status := AttStatus.present },
          by simp [checkInOp, h, hci]⟩
      | some ci => exact absurd ⟨r, h, by simp [hci]⟩ hne
  · intro r' hr
    cases h : findAttendance store eid day with
    | none =>
      simp only [checkInOp, h, Except.ok.injEq] at hr
      subst hr
      exact ⟨rfl, rfl, rfl, rfl⟩
    | some r =>
      cases hci : r.checkIn with
      | none =>
        have hkey := findAttendance_some h
        simp only [checkInOp, h, hci, Option.isSome_none, Bool.false_eq_true,
          if_false, Except.ok.injEq] at hr
        subst hr
        exact ⟨hkey.1, hkey.2, rfl, rfl⟩
      | some ci =>
        simp [checkInOp, h, hci] at hr

/-- A record created by an HR entry that has no checkIn yet. -/
def noCheckInRecord0 : AttendanceRecord :=
  { employeeId := 1, date := 0, checkIn := none, checkOut := none,
    hoursWorked := none, status := AttStatus.absent, notes := none }

/-- The record produced by checking in on `noCheckInRecord0` at time
7200000. -/
def checkedInRecord0 : AttendanceRecord :=
  { noCheckInRecord0 with checkIn := some 7200000, status := AttStatus.present }

/-- Witness for C6: a check-in over an HR-created record with no checkIn
succeeds with `checkIn = now, status = present`; a record with a prior
checkIn makes the call fail. -/
theorem checkIn_spec_witness :
    ((checkInOp [checkOutRecord0] 1 0 7200000).1 =
        Except.error CheckInError.AlreadyCheckedIn) ∧
    ((checkInOp [noCheckInRecord0] 1 0 7200000).1 = Except.ok checkedInRecord0) ∧
    checkedInRecord0.checkIn = some 7200000 ∧
    checkedInRecord0.status = AttStatus.present :=
  ⟨(checkIn_spec [checkOutRecord0] 1 0 7200000).1.mpr
      ⟨checkOutRecord0, rfl, by simp [checkOutRecord0]⟩,
   rfl,
   ((checkIn_spec [noCheckInRecord0] 1 0 7200000).2.2 checkedInRecord0 rfl).2.2.1,
   ((checkIn_spec [noCheckInRecord0] 1 0 7200000).2.2 checkedInRecord0 rfl).2.2.2⟩

/-! ## C9: a zero duration is stored as null in the HR upsert -/

/-- C9.  In the HR attendance upsert, when checkIn and checkOut are supplied
and equal, the computed duration is zero, which is falsy, so the stored
`hoursWorked` is null rather than 0.00. -/
theorem hr_zero_duration_stores_null (store : List AttendanceRecord)
    (input : HRAttendanceInput) (t : Int) (h1 : input.checkIn = some t)
    (h2 : input.checkOut = some t) :
    (hrUpsert store input).1.hoursWorked = none := by
  have hz : hrComputedHours input.checkIn input.checkOut = some 0 := by
    rw [h1, h2]
    simp [hrComputedHours, hoursBetween]
  simp only [hrUpsert, hz, hrStoredHours]
  split <;> simp

/-- An HR entry whose checkIn and checkOut coincide. -/
def equalTimesInput : HRAttendanceInput :=
  { employeeId := 1, day := 0, checkIn := some 3600000,
    checkOut := some 3600000, status := AttStatus.present, notes := none }

/-- Witness for C9 at a concrete input. -/
theorem hr_zero_duration_stores_null_witness :
    equalTimesInput.checkIn = some 3600000 ∧
    equalTimesInput.checkOut = some 3600000 ∧
    (hrUpsert [] equalTimesInput).1.hoursWorked = none :=
  ⟨rfl, rfl, hr_zero_duration_stores_null [] equalTimesInput 3600000 rfl rfl⟩

/-! ## C10: which fields the HR upsert overwrites -/

/-- An existing record carrying notes, hit by a later HR upsert. -/
def notesRecord0 : AttendanceRecord :=
  { employeeId := 1, date := 0, checkIn := some 0, checkOut := none,
    hoursWorked := none, status := AttStatus.present,
    notes := some "door badge missing" }

/-- An HR request for the same (employee, day) that supplies no notes
(`notes` absent from the body, hence `undefined`). -/
def hrInputNoNotes : HRAttendanceInput :=
  { employeeId := 1, day := 0, checkIn := none, checkOut := none,
    status := AttStatus.absent, notes := none }

/-- Counterexample to C10: the update reaches an existing record, notes are
not supplied, yet the previously stored notes survive — Prisma skips an
`undefined` field instead of writing null. -/
theorem hr_upsert_notes_not_overwritten :
    hrInputNoNotes.notes = none ∧
    findAttendance [notesRecord0] hrInputNoNotes.employeeId hrInputNoNotes.day =
      some notesRecord0 ∧
    (hrUpsert [notesRecord0] hrInputNoNotes).1.notes = some "door badge missing" :=
  ⟨rfl, rfl, rfl⟩

/-- C10 amended.  When the HR upsert targets an existing record, checkIn,
checkOut and hoursWorked are overwritten with the supplied value or null, and
status with the supplied status; notes is overwritten only when supplied and
keeps its previous value when absent. -/
theorem hr_upsert_update_fields (store : List AttendanceRecord)
    (input : HRAttendanceInput) (r : AttendanceRecord)
    (h : findAttendance store input.employeeId input.day = some r) :
    (hrUpsert store input).1.checkIn = input.checkIn ∧
    (hrUpsert store input).1.checkOut = input.checkOut ∧
    (hrUpsert store input).1.hoursWorked =
      hrStoredHours (hrComputedHours input.checkIn input.checkOut) ∧
    (hrUpsert store input).1.status = input.status ∧
    (hrUpsert store input).1.notes =
      (match input.notes with
       | some n => some n
       | none => r.notes) := by
  simp [hrUpsert, h]

/-- Witness for the amended C10 at a concrete input: the timestamps and
hours are nulled, the status is replaced, the absent notes are kept. -/
theorem hr_upsert_update_fields_witness :
    (hrUpsert [notesRecord0] hrInputNoNotes).1.checkIn = none ∧
    (hrUpsert [notesRecord0] hrInputNoNotes).1.checkOut = none ∧
    (hrUpsert [notesRecord0] hrInputNoNotes).1.hoursWorked = none ∧
    (hrUpsert [notesRecord0] hrInputNoNotes).1.status = AttStatus.absent ∧
    (hrUpsert [notesRecord0] hrInputNoNotes).1.notes = notesRecord0.notes :=
  ⟨(hr_upsert_update_fields [notesRecord0] hrInputNoNotes notesRecord0 rfl).1,
   (hr_upsert_update_fields [notesRecord0] hrInputNoNotes notesRecord0 rfl).2.1,
   (hr_upsert_update_fields [notesRecord0] hrInputNoNotes notesRecord0 rfl).2.2.1,
   (hr_upsert_update_fields [notesRecord0] hrInputNoNotes notesRecord0 rfl).2.2.2.1,
   (hr_upsert_update_fields [notesRecord0] hrInputNoNotes notesRecord0 rfl).2.2.2.2⟩

/-! ## C8: stored hoursWorked and its sign -/

/-- An HR entry whose checkOut precedes its checkIn by one hour. -/
def negDurationInput : HRAttendanceInput :=
  { employeeId := 1, day := 0, checkIn := some 3600000, checkOut := some 0,
    status := AttStatus.present, notes := none }

/-- Counterexample to C8: the HR upsert happily stores a negative
hoursWorked (−1.00) when checkOut lies before checkIn — no sign check
exists on that path. -/
theorem hr_upsert_stores_negative_hours :
    (hrUpsert [] negDurationInput).1.hoursWorked = some (-1) ∧
    ((-1 : ℚ) < 0) := by
  have hv : hoursBetween 3600000 0 = -1 := by
    unfold hoursBetween
    norm_num
  have hr2 : round2 (-1 : ℚ) = -1 := by
    rw [round2_eq (-1) (-100) (by norm_num) (by norm_num)]
    norm_num
  refine ⟨?_, by norm_num⟩
  show (hrUpsert [] negDurationInput).1.hoursWorked = some (-1)
  simp only [hrUpsert, negDurationInput, hrComputedHours, hv, hrStoredHours,
    findAttendance, List.find?_nil]
  norm_num [hr2]

/-- C8 amended.  A stored hoursWorked is non-negative provided the check-out
timestamp is not earlier than the check-in timestamp: this holds for the
employee check-out path (checkIn ≤ now) and for the HR path
(checkIn ≤ checkOut); without that proviso the HR path can store negative
values. -/
theorem stored_hours_nonneg (store : List AttendanceRecord) (eid : Nat)
    (day now : Int) (input : HRAttendanceInput) :
    (∀ r ci, findAttendance store eid day = some r → r.checkIn = some ci →
      ci ≤ now → ∀ r' h, (checkOutOp store eid day now).1 = Except.ok r' →
      r'.hoursWorked = some h → 0 ≤ h)
    ∧ (∀ a b, input.checkIn = some a → input.checkOut = some b → a ≤ b →
      ∀ h, (hrUpsert store input).1.hoursWorked = some h → 0 ≤ h) := by
  constructor
  · intro r ci hfind hci hle r' h hok hh
    cases hco : r.checkOut with
    | some co =>
      simp [checkOutOp, hfind, hci, hco] at hok
    | none =>
      simp only [checkOutOp, hfind, hci, hco, Except.ok.injEq] at hok
      subst hok
      simp only [Option.some.injEq] at hh
      subst hh
      exact round2_nonneg _ (hoursBetween_nonneg ci now hle)
  · intro a b ha hb hle h hh
    have hz : hrComputedHours input.checkIn input.checkOut =
        some (hoursBetween a b) := by
      rw [ha, hb]
      rfl
    have hnn : 0 ≤ hoursBetween a b := hoursBetween_nonneg a b hle
    simp only [hrUpsert, hz, hrStoredHours] at hh
    rcases hfind : findAttendance store input.employeeId input.day with _ | r <;>
      rw [hfind] at hh <;> simp only at hh <;>
      · rcases hzero : decide (hoursBetween a b = 0) with _ | _
        · rw [if_neg (by simpa using hzero)] at hh
          simp only [Option.some.injEq] at hh
          subst hh
          exact round2_nonneg _ hnn
        · rw [if_pos (by simpa using hzero)] at hh
          cases hh

/-- The record produced by checking out `checkOutRecord0` at time 5400000. -/
def checkedOutResult0 : AttendanceRecord :=
  { checkOutRecord0 with checkOut := some 5400000,
                         hoursWorked := some (round2 (hoursBetween 0 5400000)) }

/-- An HR entry with one elapsed hour, checkIn before checkOut. -/
def posDurationInput : HRAttendanceInput :=
  { employeeId := 1, day := 0, checkIn := some 0, checkOut := some 3600000,
    status := AttStatus.present, notes := none }

/-- Witness for the amended C8: both operation paths yield a non-negative
stored hoursWorked at concrete well-ordered timestamps. -/
theorem stored_hours_nonneg_witness :
    (0 ≤ round2 (hoursBetween 0 5400000)) ∧
    (0 ≤ round2 (hoursBetween 0 3600000)) :=
  ⟨(stored_hours_nonneg [checkOutRecord0] 1 0 5400000 posDurationInput).1
      checkOutRecord0 0 rfl rfl (by norm_num) checkedOutResult0
      (round2 (hoursBetween 0 5400000)) rfl rfl,
   (stored_hours_nonneg [] 1 0 5400000 posDurationInput).2 0 3600000 rfl rfl
      (by norm_num) (round2 (hoursBetween 0 3600000))
      (by
        have hv : hoursBetween 0 3600000 = 1 := by
          unfold hoursBetween
          norm_num
        simp only [hrUpsert, posDurationInput, hrComputedHours, hrStoredHours,
          findAttendance, List.find?_nil, hv]
        norm_num)⟩

/-! ## C1: workingDays counts present records in the month window -/

/-- Reordering the four conjuncts of the attendance-window predicate. -/
theorem bool_and_reorder (a b c d : Bool) :
    (((a && b) && c) && d) = (((a && d) && b) && c) := by
  cases a <;> cases b <;> cases c <;> cases d <;> rfl

/-- The length of the payroll generator's attendance query equals the spec's
working-day count. -/
theorem query_length_eq_specWorkingDays (records : List AttendanceRecord)
    (eid m y : Nat) :
    (payrollAttendanceQuery records eid m y).length =
      specWorkingDays records eid m y := by
  unfold payrollAttendanceQuery specWorkingDays
  rw [← List.countP_eq_length_filter]
  refine List.countP_congr fun r _ => ?_
  rw [bool_and_reorder]

/-- C1.  A successful payroll generation stores `workingDays` equal to the
number of the employee's attendance records with status `present` whose
date lies in the inclusive window from the month's first day at 00:00:00 to
its last day at 23:59:59.999. -/
theorem payroll_workingDays_spec (db : Db) (eid m y newId : Nat)
    (p : PayrollRecord) (db' : Db)
    (h : generatePayroll db eid m y newId = (Except.ok p, db')) :
    p.workingDays = specWorkingDays db.attendance eid m y := by
  unfold generatePayroll at h
  split at h
  · simp at h
  · split at h
    · simp at h
    · simp only [Prod.mk.injEq, Except.ok.injEq] at h
      obtain ⟨hp, -⟩ := h
      subst hp
      exact query_length_eq_specWorkingDays db.attendance eid m y

/-- Employee on record for the concrete payroll runs. -/
def payrollEmployee0 : Employee :=
  { id := 1, firstName := "Ada", lastName := "Lovelace", salary := 5000 }

/-- Attendance for employee 1: present on 2024-01-01 and 2024-01-15, absent
on 2024-01-15 + 1 day is not needed; one `absent` row inside the window and
one `present` row on 2023-12-31, outside the window. -/
def janAttendance : List AttendanceRecord :=
  [{ employeeId := 1, date := 1704067200000, checkIn := none, checkOut := none,
     hoursWorked := none, status := AttStatus.present, notes := none },
   { employeeId := 1, date := 1705276800000, checkIn := none, checkOut := none,
     hoursWorked := none, status := AttStatus.present, notes := none },
   { employeeId := 1, date := 1705363200000, checkIn := none, checkOut := none,
     hoursWorked := none, status := AttStatus.absent, notes := none },
   { employeeId := 1, date := 1703980800000, checkIn := none, checkOut := none,
     hoursWorked := none, status := AttStatus.present, notes := none }]

/-- Concrete payroll database: one employee, January 2024 attendance, no
payroll rows yet. -/
def payrollDb0 : Db :=
  { employees := [payrollEmployee0], attendance := janAttendance,
    payrolls := [] }

/-- The payroll row generated for employee 1, January 2024 (fields written
exactly as the generator computes them). -/
def payrollResult0 : PayrollRecord :=
  { id := 7, employeeId := 1, month := 1, year := 2024, basicSalary := 5000,
    allowances := 5000 * (1 / 10), deductions := 5000 * (5 / 100),
    netSalary := 5000 + 5000 * (1 / 10) - 5000 * (5 / 100),
    workingDays := 2, status := PayStatus.pending, paidDate := none }

/-- The database after the first successful generation. -/
def payrollDb1 : Db :=
  { employees := [payrollEmployee0], attendance := janAttendance,
    payrolls := [payrollResult0] }

/-- Witness for C1: two of the four attendance rows qualify (present and
inside January 2024), and the generated record stores workingDays = 2. -/
theorem payroll_workingDays_spec_witness :
    generatePayroll payrollDb0 1 1 2024 7 = (Except.ok payrollResult0, payrollDb1) ∧
    payrollResult0.workingDays = specWorkingDays payrollDb0.attendance 1 1 2024 ∧
    specWorkingDays payrollDb0.attendance 1 1 2024 = 2 :=
  ⟨rfl,
   payroll_workingDays_spec payrollDb0 1 1 2024 7 payrollResult0 payrollDb1 rfl,
   by decide⟩

/-! ## C2: salary-derived amounts -/

/-- C2.  A successful payroll generation for an employee with stored salary
`s` produces `basicSalary = s`, `allowances = s × 0.10`,
`deductions = s × 0.05` and `netSalary = basicSalary + allowances −
deductions`. -/
theorem payroll_amounts (db : Db) (eid m y newId : Nat) (p : PayrollRecord)
    (db' : Db) (emp : Employee)
    (h : generatePayroll db eid m y newId = (Except.ok p, db'))
    (hemp : findEmployee db.employees eid = some emp) :
    p.basicSalary = emp.salary ∧ p.allowances = emp.salary * (1 / 10) ∧
    p.deductions = emp.salary * (5 / 100) ∧
    p.netSalary = p.basicSalary + p.allowances - p.deductions := by
  unfold generatePayroll at h
  split at h
  · simp at h
  · split at h
    · simp at h
    · rename_i emp' heq
      rw [hemp] at heq
      obtain rfl : emp = emp' := by
        injection heq
      simp only [Prod.mk.injEq, Except.ok.injEq] at h
      obtain ⟨hp, -⟩ := h
      subst hp
      exact ⟨rfl, rfl, rfl, rfl⟩

/-- Witness for C2 at salary 5000: allowances 500, deductions 250,
netSalary 5250. -/
theorem payroll_amounts_witness :
    generatePayroll payrollDb0 1 1 2024 7 = (Except.ok payrollResult0, payrollDb1) ∧
    payrollResult0.basicSalary = payrollEmployee0.salary ∧
    payrollResult0.allowances = payrollEmployee0.salary * (1 / 10) ∧
    payrollResult0.deductions = payrollEmployee0.salary * (5 / 100) ∧
    payrollResult0.netSalary =
      payrollResult0.basicSalary + payrollResult0.allowances -
        payrollResult0.deductions ∧
    payrollResult0.basicSalary = 5000 ∧ payrollResult0.allowances = 500 ∧
    payrollResult0.deductions = 250 ∧ payrollResult0.netSalary = 5250 := by
  have hm := payroll_amounts payrollDb0 1 1 2024 7 payrollResult0 payrollDb1
    payrollEmployee0 rfl rfl
  refine ⟨rfl, hm.1, hm.2.1, hm.2.2.1, hm.2.2.2, rfl, ?_, ?_, ?_⟩
  · show (5000 : ℚ) * (1 / 10) = 500
    norm_num
  · show (5000 : ℚ) * (5 / 100) = 250
    norm_num
  · show (5000 : ℚ) + 5000 * (1 / 10) - 5000 * (5 / 100) = 5250
    norm_num

/-! ## C3: generating the same payroll twice fails -/

/-- Appending a record with the sought key to a store where the lookup came
up empty makes the lookup return that record. -/
theorem findPayrollByKey_append (ps : List PayrollRecord) (p : PayrollRecord)
    (eid m y : Nat) (hkey : findPayrollByKey ps eid m y = none)
    (h1 : p.employeeId = eid) (h2 : p.month = m) (h3 : p.year = y) :
    findPayrollByKey (ps ++ [p]) eid m y = some p := by
  unfold findPayrollByKey at hkey ⊢
  rw [List.find?_append, hkey, Option.none_or, List.find?_cons]
  simp [h1, h2, h3]

/-- C3.  After a successful generation for (employee, month, year), a second
call for the same triple fails with `DuplicatePayroll`, the message embeds
the employee's display name, and the database is returned unchanged (the
route replies before any insert). -/
theorem duplicate_payroll_second_call (db : Db) (eid m y newId newId2 : Nat)
    (p : PayrollRecord) (db1 : Db) (emp : Employee)
    (h : generatePayroll db eid m y newId = (Except.ok p, db1))
    (hemp : findEmployee db.employees eid = some emp) :
    generatePayroll db1 eid m y newId2 =
      (Except.error (PayrollError.DuplicatePayroll
        (dupMessage (emp.firstName ++ " " ++ emp.lastName) m y)), db1) ∧
    (∃ pre post, dupMessage (emp.firstName ++ " " ++ emp.lastName) m y =
      pre ++ (emp.firstName ++ " " ++ emp.lastName) ++ post) := by
  constructor
  · unfold generatePayroll at h
    split at h
    · simp at h
    · rename_i hkey
      split at h
      · simp at h
      · rename_i emp' heq
        rw [hemp] at heq
        obtain rfl : emp = emp' := by
          injection heq
        simp only [Prod.mk.injEq, Except.ok.injEq] at h
        obtain ⟨hp, hdb⟩ := h
        rw [hp] at hdb
        subst hdb
        have h1 : p.employeeId = eid := by
          rw [← hp]
        have h2 : p.month = m := by
          rw [← hp]
        have h3 : p.year = y := by
          rw [← hp]
        have hfound := findPayrollByKey_append db.payrolls p eid m y hkey
          h1 h2 h3
        simp only [generatePayroll, hfound, displayName, h1, hemp]
  · exact ⟨"Payroll for ",
      " for " ++ toString m ++ "/" ++ toString y ++
        " already exists. Please check the payroll list or delete the existing record first.",
      rfl⟩

/-- Witness for C3: regenerating January 2024 payroll for employee 1 fails
with a `DuplicatePayroll` whose message carries "Ada Lovelace", and leaves
the store as it was. -/
theorem duplicate_payroll_second_call_witness :
    generatePayroll payrollDb1 1 1 2024 8 =
      (Except.error (PayrollError.DuplicatePayroll
        (dupMessage ("Ada" ++ " " ++ "Lovelace") 1 2024)), payrollDb1) ∧
    dupMessage ("Ada" ++ " " ++ "Lovelace") 1 2024 =
      "Payroll for " ++ ("Ada" ++ " " ++ "Lovelace") ++
        (" for " ++ toString (1 : Nat) ++ "/" ++ toString (2024 : Nat) ++
          " already exists. Please check the payroll list or delete the existing record first.") :=
  ⟨(duplicate_payroll_second_call payrollDb0 1 1 2024 7 8 payrollResult0
      payrollDb1 payrollEmployee0 rfl rfl).1,
   rfl⟩

/-! ## C7: markPaid -/

/-- C7.  `PUT /api/payroll/:id/paid` sets the record's status to `paid` and
its paidDate to now, fails with `NotFound` when no record with that id
exists, and succeeds on a record that is already `paid`, leaving the status
`paid`. -/
theorem markPaid_spec (ps : List PayrollRecord) (pid : Nat) (now : Int) :
    (findPayrollById ps pid = none →
      markPaid ps pid now = (Except.error MarkPaidError.NotFound, ps))
    ∧ (∀ r, findPayrollById ps pid = some r →
      (markPaid ps pid now).1 =
        Except.ok { r with status := PayStatus.paid, paidDate := some now })
    ∧ (∀ r, findPayrollById ps pid = some r → r.status = PayStatus.paid →
      ∃ r', (markPaid ps pid now).1 = Except.ok r' ∧
        r'.status = PayStatus.paid) := by
  refine ⟨fun h => ?_, fun r h => ?_, fun r h hp => ?_⟩
  · simp [markPaid, h]
  · simp [markPaid, h]
  · exact ⟨{ r with status := PayStatus.paid, paidDate := some now },
      by simp [markPaid, h], rfl⟩

/-- A payroll row already marked paid. -/
def paidRecord0 : PayrollRecord :=
  { id := 3, employeeId := 1, month := 1, year := 2024, basicSalary := 5000,
    allowances := 500, deductions := 250, netSalary := 5250, workingDays := 2,
    status := PayStatus.paid, paidDate := some 1704067200000 }

/-- `paidRecord0` re-stamped at time 1706745599999. -/
def paidRecord0Restamped : PayrollRecord :=
  { paidRecord0 with status := PayStatus.paid, paidDate := some 1706745599999 }

/-- Witness for C7: missing id yields NotFound; re-marking an already paid
record succeeds and the status stays `paid`. -/
theorem markPaid_spec_witness :
    markPaid [] 3 1706745599999 = (Except.error MarkPaidError.NotFound, []) ∧
    (markPaid [paidRecord0] 3 1706745599999).1 = Except.ok paidRecord0Restamped ∧
    paidRecord0.status = PayStatus.paid ∧
    paidRecord0Restamped.status = PayStatus.paid ∧
    paidRecord0Restamped.paidDate = some 1706745599999 :=
  ⟨(markPaid_spec [] 3 1706745599999).1 rfl,
   (markPaid_spec [paidRecord0] 3 1706745599999).2.1 paidRecord0 rfl,
   rfl, rfl, rfl⟩
